import Mathlib

/-
  Shallow embedding of the BOUT-COORDINATOR-SYSTEM single source file
  (src/index.tsx): a React single-page app holding a local mirror of a
  shared event state (door counter, capacity, WiFi credentials) plus an
  append-only message log, synchronized through a remote backend and a
  presence channel.

  Machine numbers of the source are JS numbers used only at integer
  values here, so they are modelled as Int; the occupancy percentage is
  the one place real division occurs and is modelled over Rat with a
  round-half-up rounding, matching JS Math.round on the values reached.
  Backend effects are made explicit as a list of issued calls.
-/

namespace BoutCoord

/-- The five station identities of the source (`type Station`). -/
inductive Station where
  | MERCH | BEER | TICKETS | PRODUCTION | COORDINATOR
deriving DecidableEq, Repr

/-- A log message as held in the local mirror (`interface Message`). -/
structure Message where
  id : Int
  time : String
  station : Station
  text : String
deriving DecidableEq, Repr

/-- A presence record as seen in a presence snapshot
(`interface UserPresence`; the server-assigned `presence_ref` field is
never read by any handler and is omitted). -/
structure UserPresence where
  device_id : String
  role : String
  online_at : String
deriving DecidableEq, Repr

/-- A backend call issued by a handler; the source performs these via the
remote client, here they are recorded as explicit effects. -/
inductive BackendCall where
  | updateDoorCount (n : Int)
  | updateCapacity (n : Int)
  | insertMessage (time : String) (station : Station) (text : String)
  | deleteAllMessages
  | updateWifi (ssid pw : String)
deriving DecidableEq, Repr

/-- The component state of `BoutCoordinatorApp` relevant to the data
model: the locally mirrored event state, the message log, role and
presence-derived flags, and the reset-confirmation input. `hasClient`
models `supabaseClient !== null`. -/
structure AppState where
  deviceId : String
  operatorName : String
  selectedStation : Option Station
  doorCount : Int
  capacity : Int
  messages : List Message
  inputText : String
  hasClient : Bool
  isConnected : Bool
  wifiSSID : String
  wifiPass : String
  otherCoordinatorOnline : Bool
  showResetView : Bool
  resetInputText : String
  showNetworkModal : Bool
deriving DecidableEq, Repr

/-- The initial component state: every `useState` initializer of the
source (`doorCount = 0`, `capacity = 300`, empty log and strings). -/
def initialState (deviceId : String) : AppState :=
  { deviceId := deviceId
    operatorName := ""
    selectedStation := none
    doorCount := 0
    capacity := 300
    messages := []
    inputText := ""
    hasClient := false
    isConnected := false
    wifiSSID := ""
    wifiPass := ""
    otherCoordinatorOnline := false
    showResetView := false
    resetInputText := ""
    showNetworkModal := false }

/-- Payload of an `event_state` UPDATE notification (`payload.new`):
`door_count` and `capacity` are always present on the row; the WiFi
fields may be absent (`undefined`), modelled by `Option`. -/
structure EventStatePayload where
  door_count : Int
  capacity : Int
  wifi_ssid : Option String
  wifi_pass : Option String
deriving DecidableEq, Repr

/-- The `event_state` UPDATE handler registered in `connectToSupabase`:
unconditionally overwrite `doorCount` and `capacity` with the payload
values; overwrite each WiFi field only when present in the payload. -/
def onEventStateUpdate (s : AppState) (p : EventStatePayload) : AppState :=
  { s with
    doorCount := p.door_count
    capacity := p.capacity
    wifiSSID := p.wifi_ssid.getD s.wifiSSID
    wifiPass := p.wifi_pass.getD s.wifiPass }

/-- The `messages` INSERT handler registered in `connectToSupabase`:
`setMessages (prev => [...prev, newMsg])`, an unconditional append. -/
def onMessageInsert (s : AppState) (m : Message) : AppState :=
  { s with messages := s.messages ++ [m] }

/-- The presence `sync` handler registered in `connectToSupabase`: walk
every member's list of presence records and set `otherCoordinatorOnline`
to whether some record has `role === 'COORDINATOR'` and a `device_id`
different from this device's. The snapshot is the list of values of the
membership map. -/
def onPresenceSync (s : AppState) (snapshot : List (List UserPresence)) : AppState :=
  { s with
    otherCoordinatorOnline :=
      snapshot.any (fun ps =>
        ps.any (fun p => p.role == "COORDINATOR" && p.device_id != s.deviceId)) }

/-- `handleClaimBC`: claim the coordinator role by setting the operator
name to the literal string announced thereafter by the presence track
effect, and clearing the selected station. -/
def handleClaimBC (s : AppState) : AppState :=
  { s with operatorName := "Bout Coordinator", selectedStation := none }

/-- The presence payload the track effect announces for this device:
`{ device_id: deviceId, role: operatorName, online_at: ... }`. -/
def trackPayload (s : AppState) (onlineAt : String) : UserPresence :=
  { device_id := s.deviceId, role := s.operatorName, online_at := onlineAt }

/-- The initial-hydration message fetch seeds the log with the newest 50
rows fetched in descending creation order and reversed to oldest-first
(`setMessages (msgData.reverse ())`). -/
def seedMessages (newestFirst : List Message) : List Message :=
  newestFirst.reverse

/-- `disconnect`: drop the client and channel, mark disconnected, clear
the message log and zero the counter. (The credential removal from local
storage is external state, not part of the mirror.) -/
def disconnect (s : AppState) : AppState :=
  { s with hasClient := false, isConnected := false, messages := [], doorCount := 0 }

/-- The clamped counter step of `handleDoorChange`:
`Math.max (0, doorCount + delta)`. -/
def doorStep (c delta : Int) : Int := max 0 (c + delta)

/-- `handleDoorChange`: optimistically apply the clamped new count
locally, and issue the backend `door_count` update when a client holds. -/
def handleDoorChange (s : AppState) (delta : Int) : AppState × List BackendCall :=
  let newCount := doorStep s.doorCount delta
  ({ s with doorCount := newCount },
   if s.hasClient then [BackendCall.updateDoorCount newCount] else [])

/-- `handleCapacityChange`: set the capacity locally (no clamping here)
and issue the backend `capacity` update when a client holds. -/
def handleCapacityChange (s : AppState) (newCap : Int) : AppState × List BackendCall :=
  ({ s with capacity := newCap },
   if s.hasClient then [BackendCall.updateCapacity newCap] else [])

/-- The capacity input's onChange path:
`handleCapacityChange (Math.max (1, parseInt (value) || 0))`; a parse
failure (`NaN`, modelled by `none`) falls back to `0` before the clamp. -/
def capacityInputOnChange (s : AppState) (parsed : Option Int) : AppState × List BackendCall :=
  handleCapacityChange s (max 1 (parsed.getD 0))

/-- `handleFullReset`: return immediately unless the confirmation text is
exactly `"RESET"`; otherwise issue the backend `door_count := 0` update
and the bulk message delete (when a client holds), zero the local
counter, empty the local log, and close the reset view and modal. -/
def handleFullReset (s : AppState) : AppState × List BackendCall :=
  if s.resetInputText ≠ "RESET" then (s, [])
  else
    ({ s with
        doorCount := 0
        messages := []
        showResetView := false
        resetInputText := ""
        showNetworkModal := false },
     if s.hasClient then [BackendCall.updateDoorCount 0, BackendCall.deleteAllMessages] else [])

/-- Station named by an operator-name string; the source performs an
unchecked cast (`operatorName as Station`), faithful on the names the UI
can actually assign. -/
def stationOfName : String → Option Station
  | "MERCH" => some Station.MERCH
  | "BEER" => some Station.BEER
  | "TICKETS" => some Station.TICKETS
  | "PRODUCTION" => some Station.PRODUCTION
  | "COORDINATOR" => some Station.COORDINATOR
  | _ => none

/-- `handleSendMessage`: return if the trimmed input is empty; otherwise
resolve the sender, clear the input box, and issue the backend insert
(when a client holds). No local append to `messages` is performed: the
log is extended only by the INSERT notification handler. The formatted
time string is passed in (it is computed from the wall clock). -/
def handleSendMessage (s : AppState) (timeStr : String) : AppState × List BackendCall :=
  if s.inputText.trim = "" then (s, [])
  else
    let sender : Station :=
      if s.operatorName = "Bout Coordinator" then s.selectedStation.getD Station.COORDINATOR
      else (stationOfName s.operatorName).getD Station.COORDINATOR
    ({ s with inputText := "" },
     if s.hasClient then [BackendCall.insertMessage timeStr sender (s.inputText.trim)] else [])

/-- The derived occupancy percentage:
`Math.min (100, Math.round ((doorCount / (capacity || 1)) * 100))`, with
`capacity || 1` guarding the zero divisor and `Math.round` the
round-half-up rounding `round` of Mathlib. -/
def occupancy (doorCount capacity : Int) : Int :=
  min 100 (round (((doorCount : Rat) / (if capacity = 0 then 1 else (capacity : Rat))) * 100))

/-- The derived over-capacity flag: `doorCount > capacity`. -/
def isOverCapacity (doorCount capacity : Int) : Bool := doorCount > capacity

/-- A sequence of local door-count deltas applied through
`handleDoorChange`, each acting on the state left by the previous one. -/
def applyDoorDeltasState (s : AppState) : List Int → AppState
  | [] => s
  | d :: ds => applyDoorDeltasState (handleDoorChange s d).1 ds

/-- The pure fold of the clamped counter step over a list of deltas. -/
def applyDoorDeltas (c : Int) (ds : List Int) : Int :=
  ds.foldl doorStep c

end BoutCoord

namespace BoutCoord

/-- A concrete log message used by several concrete states below. -/
def msgA : Message :=
  { id := 1, time := "7:00 PM", station := Station.MERCH, text := "hello" }

/- Helper: the door-count component of a delta sequence applied through
`handleDoorChange` is the pure clamped fold over the deltas. -/
theorem applyDoorDeltasState_doorCount (ds : List Int) (s : AppState) :
    (applyDoorDeltasState s ds).doorCount = applyDoorDeltas s.doorCount ds := by
  induction ds generalizing s with
  | nil => rfl
  | cons d ds ih =>
    simpa [applyDoorDeltasState, applyDoorDeltas, handleDoorChange] using
      ih (handleDoorChange s d).1

/-- C1: a device that claims the coordinator role via `handleClaimBC`
announces the role string "Bout Coordinator"; yet for a presence
snapshot containing exactly that record from another device, the sync
handler leaves `otherCoordinatorOnline` false, because it compares roles
against the literal "COORDINATOR", which no device ever announces. The
claim requires `true` here. -/
theorem c1_presence_check_misses_claimed_coordinator :
    (trackPayload (handleClaimBC (initialState "dev_b")) "t0").role = "Bout Coordinator" ∧
    (trackPayload (handleClaimBC (initialState "dev_b")) "t0").device_id ≠
      (initialState "dev_a").deviceId ∧
    (onPresenceSync (initialState "dev_a")
        [[trackPayload (handleClaimBC (initialState "dev_b")) "t0"]]).otherCoordinatorOnline
      = false := by
  decide

/-- C2 counterexample: from `doorCount = 0`, the delta sequence
`[-1, +1]` applied through `handleDoorChange` leaves the counter at `1`,
while `max 0 (sum of deltas) = 0`. -/
theorem c2_sum_formula_fails :
    (applyDoorDeltasState (initialState "dev") [-1, 1]).doorCount ≠
      max 0 (List.sum [(-1 : Int), 1]) := by
  decide

/-- C2 (amended): for every finite sequence of local deltas applied via
`handleDoorChange` from `doorCount = 0` with no remote notification
interleaved, the resulting counter equals the left fold of the per-step
clamp `max 0 (current + delta)` over the deltas, starting from 0. -/
theorem c2_door_deltas_clamped_fold (s : AppState) (ds : List Int)
    (h : s.doorCount = 0) :
    (applyDoorDeltasState s ds).doorCount = applyDoorDeltas 0 ds := by
  rw [applyDoorDeltasState_doorCount, h]

/-- C2 witness: the amended claim at the fresh state and `[-1, 1, 1]`. -/
theorem c2_door_deltas_clamped_fold_witness :
    (initialState "dev").doorCount = 0 ∧
    (applyDoorDeltasState (initialState "dev") [-1, 1, 1]).doorCount =
      applyDoorDeltas 0 [-1, 1, 1] :=
  ⟨rfl, c2_door_deltas_clamped_fold (initialState "dev") [-1, 1, 1] rfl⟩

/-- C3: the `event_state` UPDATE notification handler is idempotent:
applying the same payload a second time immediately after the first
leaves the whole local state (in particular doorCount, capacity,
wifiSSID, wifiPass) unchanged. -/
theorem c3_snapshot_update_idempotent (s : AppState) (p : EventStatePayload) :
    onEventStateUpdate (onEventStateUpdate s p) p = onEventStateUpdate s p := by
  rcases p with ⟨dc, cap, ssid, pw⟩
  cases ssid <;> cases pw <;> rfl

/-- C4: `handleSendMessage` performs no local append — the log after
sending equals the log before — and the echoed INSERT notification for
the sent message appends it once, so a message not already present
appears exactly once afterwards. -/
theorem c4_send_then_echo_single_append (s : AppState) (t : String)
    (m : Message) (h : m ∉ s.messages) :
    (handleSendMessage s t).1.messages = s.messages ∧
    ((onMessageInsert (handleSendMessage s t).1 m).messages.count m = 1) := by
  have hmsg : (handleSendMessage s t).1.messages = s.messages := by
    unfold handleSendMessage
    split
    · rfl
    · rfl
  refine ⟨hmsg, ?_⟩
  simp [onMessageInsert, hmsg, List.count_append, List.count_eq_zero.mpr h]

/-- A concrete state about to send the message text "hello". -/
def sendState : AppState :=
  { initialState "dev" with
      inputText := "hello", operatorName := "MERCH", hasClient := true }

/-- C4 witness: the sent message echoes back into an empty log exactly
once. -/
theorem c4_send_then_echo_single_append_witness :
    msgA ∉ sendState.messages ∧
    ((handleSendMessage sendState "7:00 PM").1.messages = sendState.messages ∧
     ((onMessageInsert (handleSendMessage sendState "7:00 PM").1 msgA).messages.count msgA = 1)) :=
  ⟨by decide, c4_send_then_echo_single_append sendState "7:00 PM" msgA (by decide)⟩

/-- C5: `handleFullReset` is gated on exact equality with "RESET": with
any other confirmation text it changes nothing and issues no backend
call; with "RESET" it zeroes the local counter, empties the local log,
and (when a client holds) issues exactly the backend door-count update
to 0 and the bulk message delete. -/
theorem c5_reset_gated_on_exact_text (s : AppState) :
    (s.resetInputText ≠ "RESET" → handleFullReset s = (s, [])) ∧
    (s.resetInputText = "RESET" →
      (handleFullReset s).1.doorCount = 0 ∧
      (handleFullReset s).1.messages = [] ∧
      (s.hasClient = true →
        (handleFullReset s).2 =
          [BackendCall.updateDoorCount 0, BackendCall.deleteAllMessages])) := by
  constructor
  · intro h
    simp [handleFullReset, h]
  · intro h
    refine ⟨?_, ?_, ?_⟩ <;> simp [handleFullReset, h]

/-- A connected state with pending data and the misspelled confirmation
text "RSET". -/
def resetStateBad : AppState :=
  { initialState "dev" with
      hasClient := true, isConnected := true, doorCount := 7,
      messages := [msgA], resetInputText := "RSET" }

/-- The same state with the exact confirmation text "RESET". -/
def resetStateOk : AppState :=
  { resetStateBad with resetInputText := "RESET" }

/-- C5 witness: with "RSET" the reset is a no-op with no backend calls;
with "RESET" the counter zeroes, the log empties, and the two backend
calls are issued. -/
theorem c5_reset_gated_on_exact_text_witness :
    resetStateBad.resetInputText ≠ "RESET" ∧
    handleFullReset resetStateBad = (resetStateBad, []) ∧
    resetStateOk.resetInputText = "RESET" ∧
    (handleFullReset resetStateOk).1.doorCount = 0 ∧
    (handleFullReset resetStateOk).1.messages = [] ∧
    (handleFullReset resetStateOk).2 =
      [BackendCall.updateDoorCount 0, BackendCall.deleteAllMessages] := by
  refine ⟨by decide, (c5_reset_gated_on_exact_text resetStateBad).1 (by decide),
    by decide, ?_, ?_, ?_⟩
  · exact ((c5_reset_gated_on_exact_text resetStateOk).2 (by decide)).1
  · exact ((c5_reset_gated_on_exact_text resetStateOk).2 (by decide)).2.1
  · exact ((c5_reset_gated_on_exact_text resetStateOk).2 (by decide)).2.2 (by decide)

end BoutCoord

namespace BoutCoord

/-- A connected state one below capacity: `doorCount = 299`,
`capacity = 300` (the default). -/
def nearCapState : AppState :=
  { initialState "dev" with doorCount := 299 }

/-- C6: the counter is never clamped to capacity: from 299/300, one `+1`
delta through `handleDoorChange` gives 300 with the over-capacity flag
false, and a second `+1` gives 301 with the flag true; in general the
flag holds exactly when `doorCount > capacity`. -/
theorem c6_no_clamp_at_capacity (d c : Int) :
    (isOverCapacity d c = true ↔ d > c) ∧
    (applyDoorDeltasState nearCapState [1]).doorCount = 300 ∧
    isOverCapacity (applyDoorDeltasState nearCapState [1]).doorCount
      (applyDoorDeltasState nearCapState [1]).capacity = false ∧
    (applyDoorDeltasState nearCapState [1, 1]).doorCount = 301 ∧
    isOverCapacity (applyDoorDeltasState nearCapState [1, 1]).doorCount
      (applyDoorDeltasState nearCapState [1, 1]).capacity = true := by
  refine ⟨?_, by decide, by decide, by decide, by decide⟩
  simp [isOverCapacity]

/-- C7: an INSERT notification appends unconditionally: the log grows
from length N to N+1, the new message is last, the first N entries are
unchanged; and the hydration seed (newest-first fetch reversed) has the
length of the fetched batch. -/
theorem c7_insert_appends_at_end (s : AppState) (m : Message)
    (fetched : List Message) :
    (onMessageInsert s m).messages.length = s.messages.length + 1 ∧
    (onMessageInsert s m).messages.getLast? = some m ∧
    (onMessageInsert s m).messages.take s.messages.length = s.messages ∧
    (seedMessages fetched).length = fetched.length := by
  refine ⟨?_, ?_, ?_, ?_⟩
  · simp [onMessageInsert]
  · simp [onMessageInsert]
  · simp [onMessageInsert, List.take_left]
  · simp [seedMessages]

/-- C8: every write path of the local capacity field preserves
`capacity ≥ 1`: the capacity input's onChange clamps any parsed value
(or parse failure) to at least 1, and the UPDATE notification handler
keeps the invariant whenever the payload's capacity satisfies it. -/
theorem c8_capacity_invariant_preserved (s : AppState) (parsed : Option Int)
    (p : EventStatePayload) (hp : 1 ≤ p.capacity) :
    1 ≤ (capacityInputOnChange s parsed).1.capacity ∧
    1 ≤ (onEventStateUpdate s p).capacity := by
  constructor
  · simp only [capacityInputOnChange, handleCapacityChange]
    exact le_max_left 1 _
  · simpa [onEventStateUpdate] using hp

/-- A concrete UPDATE payload with capacity 1 and no WiFi fields. -/
def payloadCapOne : EventStatePayload :=
  { door_count := 10, capacity := 1, wifi_ssid := none, wifi_pass := none }

/-- C8 witness: a parsed capacity input of 0 and the payload of capacity
1 both leave the local capacity at least 1. -/
theorem c8_capacity_invariant_preserved_witness :
    1 ≤ payloadCapOne.capacity ∧
    (1 ≤ (capacityInputOnChange (initialState "dev") (some 0)).1.capacity ∧
     1 ≤ (onEventStateUpdate (initialState "dev") payloadCapOne).capacity) :=
  ⟨by decide, c8_capacity_invariant_preserved (initialState "dev") (some 0) payloadCapOne (by decide)⟩

/-- A connected state with a nonzero counter, a nonempty log, a
non-default capacity and stored WiFi credentials. -/
def preDisconnectState : AppState :=
  { initialState "dev" with
      hasClient := true, isConnected := true, doorCount := 42,
      capacity := 250, wifiSSID := "DerbyNet", wifiPass := "wheels",
      messages := [msgA] }

/-- C9 counterexample: `disconnect` does reach Disconnected with the
counter zeroed and the log emptied, but it does not clear every mirror
field: the capacity stays 250 and the WiFi credentials stay set, so the
WiFi fields are not both cleared as the claim asserts. -/
theorem c9_disconnect_leaves_capacity_and_wifi :
    (disconnect preDisconnectState).isConnected = false ∧
    (disconnect preDisconnectState).doorCount = 0 ∧
    (disconnect preDisconnectState).messages = [] ∧
    (disconnect preDisconnectState).capacity = 250 ∧
    (disconnect preDisconnectState).wifiSSID = "DerbyNet" ∧
    ¬((disconnect preDisconnectState).wifiSSID = "" ∧
      (disconnect preDisconnectState).wifiPass = "") := by
  decide

/-- C9 (amended): after `disconnect` the connection state is
Disconnected (client dropped, `isConnected` false), the local counter is
0 and the local log is empty; the capacity and WiFi credential fields
are left unchanged, not cleared. -/
theorem c9_disconnect_clears_count_and_log (s : AppState) :
    (disconnect s).isConnected = false ∧
    (disconnect s).hasClient = false ∧
    (disconnect s).doorCount = 0 ∧
    (disconnect s).messages = [] ∧
    (disconnect s).capacity = s.capacity ∧
    (disconnect s).wifiSSID = s.wifiSSID ∧
    (disconnect s).wifiPass = s.wifiPass := by
  simp [disconnect]

/-- C10: the occupancy percentage is total and bounded: for every
doorCount ≥ 0 and every integer capacity (0 is guarded to 1, so no
division by zero occurs), it equals
`min 100 (round (100 * doorCount / guarded capacity))` and hence never
exceeds 100. -/
theorem c10_occupancy_total_bounded (d c : Int) (_hd : 0 ≤ d) :
    occupancy d c ≤ 100 ∧
    occupancy d c =
      min 100 (round ((100 * (d : Rat)) / (if c = 0 then 1 else (c : Rat)))) := by
  refine ⟨min_le_left _ _, ?_⟩
  unfold occupancy
  congr 1
  ring_nf

/-- C10 witness: at doorCount 42 the bound and the closed form hold for
capacity 300 (occupancy 14) — the hypothesis `0 ≤ 42` is discharged
concretely. -/
theorem c10_occupancy_total_bounded_witness :
    (0 : Int) ≤ 42 ∧
    (occupancy 42 300 ≤ 100 ∧
     occupancy 42 300 =
       min 100 (round ((100 * (42 : Rat)) / (if (300 : Int) = 0 then 1 else (300 : Rat))))) :=
  ⟨by decide, c10_occupancy_total_bounded 42 300 (by decide)⟩

end BoutCoord
